import Mathlib

/-!
Verification of the load-strategy engine of `dealer/supplier/database.py`.

The Python source is shallowly embedded: each backend method
(`Dynamo.read`, `Dynamo.write`, `Dynamo._encode`, `Dynamo._merge`,
`Dynamo._update`, `Mssql.read`, `Mssql.write`, `Mssql._insert`,
`Redshift.read`, `Redshift.write`, `Redshift._insert`) becomes a Lean
function over an explicit value model.  Network clients (the DynamoDB
table object, database cursors) are modelled by explicit oracles: a scan
backend is a list of pages, a cursor failure is a boolean/by-index oracle.
Python exceptions become an explicit `Exc` result; logging becomes
boolean/structured fields of the result records.
-/

set_option autoImplicit false

namespace DataDealer

/-- Python exceptions that the source can raise on the modelled paths. -/
inductive Exc where
  | notImplementedError
  | environmentError
  | valueError
  | attributeError
  | indexError
  | genericException
  deriving DecidableEq, Repr

/-- A pandas column dtype, as far as `options`/`get_option` inspects it:
`'i' in dtype.str` (integer), `'f' in dtype.str` (float), anything else
(object/string). -/
inductive Dtype where
  | intD
  | floatD
  | objectD
  deriving DecidableEq, Repr

/-- An IEEE-754 binary64 value, by its exact mathematical value
`m * 2 ^ e` (sign folded into `m`).  Produced in normalized form
(`2^52 ≤ m < 2^53` for normal positive values) by `roundDouble`. -/
structure Float64 where
  m : ℤ
  e : ℤ
  deriving DecidableEq, Repr

/-- A `decimal.Decimal` value `c * 10 ^ e`, coefficient and exponent kept
verbatim as `Decimal(<string>)` keeps them (no trimming). -/
structure Dec where
  c : ℤ
  e : ℤ
  deriving DecidableEq, Repr

/-- A `pandas` timestamp, to the fields `strftime('%Y-%m-%d %H:%M:%S')`
reads. -/
structure Ts where
  year : Nat
  month : Nat
  day : Nat
  hour : Nat
  minute : Nat
  second : Nat
  deriving DecidableEq, Repr

/-- Scalar values of the spec's data model (§3): integer, float, exact
decimal, string, timestamp, or null. -/
inductive PyVal where
  | pint (n : ℤ)
  | pfloat (f : Float64)
  | pdec (d : Dec)
  | pstr (s : String)
  | pts (t : Ts)
  | pnull
  deriving DecidableEq, Repr

/-- A record: one row as a column-name → value mapping
(`DataFrame.to_dict(orient='records')` element). -/
abbrev Rec := List (String × PyVal)

/-- A pandas DataFrame, to the extent the source uses it: ordered column
names, their dtypes (positionally), and rows of values in column order. -/
structure Frame where
  cols : List String
  dtypes : List Dtype
  rows : List (List PyVal)
  deriving DecidableEq, Repr

/-- `DataFrame.to_dict(orient='records')`. -/
def Frame.toRecords (f : Frame) : List Rec :=
  f.rows.map (fun r => f.cols.zip r)

/-- Python truthiness of an optional string option
(`kwargs.get(k)`): `None` and `''` are falsy. -/
def optTruthy : Option String → Bool
  | none => false
  | some s => !s.isEmpty

/-! ### Binary64 rounding and Python float repr

`Dynamo._encode` stores `Decimal(str(v))` for a float `v`.  In Python a
float's `str` is its shortest decimal representation that round-trips
through binary64 rounding.  We model binary64 round-to-nearest-even
(`roundDouble`) exactly over rationals given as `num/den`, and the
`str`/`Decimal` composition as the shortest round-tripping decimal
(`shortestDec`). -/

/-- Round `a / b` (with `b > 0`) to the nearest integer, ties to even. -/
def roundHalfEven (a b : Nat) : Nat :=
  let q := a / b
  let r := a % b
  if 2 * r < b then q
  else if b < 2 * r then q + 1
  else if q % 2 = 0 then q else q + 1

/-- Fuel-bounded `⌊log_b n⌋` (structural recursion, so the kernel can
evaluate it; exact whenever `n < b ^ fuel`). -/
def ilogAux (b : Nat) : Nat → Nat → Nat
  | 0, _ => 0
  | fuel + 1, n => if n < b then 0 else ilogAux b fuel (n / b) + 1

/-- `⌊log_b n⌋` for `n < b ^ 128`. -/
def ilog (b n : Nat) : Nat :=
  ilogAux b 128 n

/-- `2 ^ e ≤ num / den` (for `den > 0`). -/
def pow2LE (e : ℤ) (num den : Nat) : Bool :=
  if 0 ≤ e then den * 2 ^ e.toNat ≤ num else den ≤ num * 2 ^ (-e).toNat

/-- `⌊log₂ (num / den)⌋` for positive `num den`. -/
def floorLog2 (num den : Nat) : ℤ :=
  let d : ℤ := (ilog 2 num : ℤ) - (ilog 2 den : ℤ)
  if pow2LE (d + 1) num den then d + 1
  else if pow2LE d num den then d else d - 1

/-- `10 ^ e ≤ num / den` (for `den > 0`). -/
def pow10LE (e : ℤ) (num den : Nat) : Bool :=
  if 0 ≤ e then den * 10 ^ e.toNat ≤ num else den ≤ num * 10 ^ (-e).toNat

/-- `⌊log₁₀ (num / den)⌋` for positive `num den`. -/
def floorLog10 (num den : Nat) : ℤ :=
  let d : ℤ := (ilog 10 num : ℤ) - (ilog 10 den : ℤ)
  if pow10LE (d + 1) num den then d + 1
  else if pow10LE d num den then d else d - 1

/-- The binary64 nearest (ties-to-even) to the positive rational
`num / den`, in the normal range; `0` maps to `⟨0, 0⟩`. -/
def roundDouble (num den : Nat) : Float64 :=
  if num = 0 then ⟨0, 0⟩
  else
    let e := floorLog2 num den
    let s := (52 : ℤ) - e
    let m := if 0 ≤ s then roundHalfEven (num * 2 ^ s.toNat) den
             else roundHalfEven num (den * 2 ^ (-s).toNat)
    if m = 2 ^ 53 then ⟨(2 : ℤ) ^ 52, e - 51⟩ else ⟨(m : ℤ), e - 52⟩

/-- The exact value of a nonnegative `Float64` as a `num / den` pair. -/
def floatFrac (f : Float64) : Nat × Nat :=
  if 0 ≤ f.e then (f.m.toNat * 2 ^ f.e.toNat, 1) else (f.m.toNat, 2 ^ (-f.e).toNat)

/-- The exact value of the decimal `k * 10 ^ t` (`k : Nat`) as a
`num / den` pair. -/
def decFracN (k : Nat) (t : ℤ) : Nat × Nat :=
  if 0 ≤ t then (k * 10 ^ t.toNat, 1) else (k, 10 ^ (-t).toNat)

/-- `⌊(num / den) / 10 ^ t⌋`. -/
def floorScale (num den : Nat) (t : ℤ) : Nat :=
  if 0 ≤ t then num / (den * 10 ^ t.toNat) else num * 10 ^ (-t).toNat / den

/-- `|k * 10 ^ t - num / den|` as a numerator over the common denominator
`den * (denominator of 10^t)`; used only to compare candidates sharing
`t`. -/
def distNum (num den : Nat) (k : Nat) (t : ℤ) : Nat :=
  let p := decFracN k t
  ((p.1 : ℤ) * den - (num : ℤ) * p.2).natAbs

/-- The decimals with `n` significant digits that round (binary64,
nearest-even) to `f`, searched in the window `k₀ - 2 … k₀ + 3` around the
scaled floor `k₀` (the window is wider than the rounding interval of any
normal binary64 value at every digit count up to 17). -/
def digitHits (f : Float64) (num den : Nat) (decExp : ℤ) (n : Nat) : List (Nat × ℤ) :=
  let t : ℤ := decExp - (n - 1 : Nat)
  let k0 := floorScale num den t
  let ks := [k0 - 2, k0 - 1, k0, k0 + 1, k0 + 2, k0 + 3]
  let ks := ks.filter (fun k => 10 ^ (n - 1) ≤ k ∧ k < 10 ^ n)
  (ks.filter (fun k => roundDouble (decFracN k t).1 (decFracN k t).2 = f)).map
    (fun k => (k, t))

/-- Among hits sharing a digit count, the one nearest to `f` (first hit
kept on an exact tie). -/
def bestHit (num den : Nat) : List (Nat × ℤ) → Option (Nat × ℤ)
  | [] => none
  | h :: rest =>
    some (rest.foldl
      (fun best c =>
        if distNum num den c.1 c.2 < distNum num den best.1 best.2 then c else best)
      h)

/-- `Decimal(str(v))` for a positive normal binary64 `v`: the decimal with
the fewest significant digits that rounds back to `v` (Python float repr),
kept verbatim by `Decimal`.  Total: returns `⟨0, 0⟩` off the positive
normal range (the source never stores such a value on the verified
paths). -/
def shortestDec (f : Float64) : Dec :=
  if f.m ≤ 0 then ⟨0, 0⟩
  else
    let p := floatFrac f
    let decExp := floorLog10 p.1 p.2
    match (List.range' 1 17).findSome?
      (fun n => bestHit p.1 p.2 (digitHits f p.1 p.2 decExp n)) with
    | some kt => ⟨(kt.1 : ℤ), kt.2⟩
    | none => ⟨0, 0⟩

/-- `'{:02d}'`-style two-digit zero padding used by `strftime`. -/
def pad2 (n : Nat) : String :=
  if n < 10 then "0" ++ toString n else toString n

/-- `%Y` four-digit zero padding. -/
def pad4 (n : Nat) : String :=
  if n < 10 then "000" ++ toString n
  else if n < 100 then "00" ++ toString n
  else if n < 1000 then "0" ++ toString n
  else toString n

/-- `v.to_pydatetime().strftime('%Y-%m-%d %H:%M:%S')`. -/
def formatTs (t : Ts) : String :=
  pad4 t.year ++ "-" ++ pad2 t.month ++ "-" ++ pad2 t.day ++ " " ++
    pad2 t.hour ++ ":" ++ pad2 t.minute ++ ":" ++ pad2 t.second

namespace Dynamo

/-- One value through `Dynamo._encode`'s loop body: ints and floats become
`Decimal(str(v))` (`Decimal(str(n))` is exactly `n` for an int),
`pd` timestamps become the fixed-format string, everything else is left
untouched. -/
def encodeVal : PyVal → PyVal
  | .pint n => .pdec ⟨n, 0⟩
  | .pfloat f => .pdec (shortestDec f)
  | .pts t => .pstr (formatTs t)
  | v => v

/-- `Dynamo._encode`: re-binds every value of the record through
`encodeVal` (the Python loop mutates `item` key by key; the net effect is
a value-wise map). -/
def encode (item : Rec) : Rec :=
  item.map (fun kv => (kv.1, encodeVal kv.2))

/-- `resp['LastEvaluatedKey'] in resp` / the loop's limit check
`len(items) > kwargs.get('limit', sys.maxsize)`: with no `limit` key the
default `sys.maxsize` is never exceeded. -/
def limExceeded {α : Type} (limit : Option Nat) (items : List α) : Bool :=
  match limit with
  | some l => decide (l < items.length)
  | none => false

/-- The `while 'LastEvaluatedKey' in resp` loop of `Dynamo.read`.  The
table is modelled as the list of pages its scan produces in order; a
continuation token is present exactly while further pages remain.
Arguments: remaining pages, accumulated `items`, scan calls issued so
far.  Returns the accumulated items, the total number of scan calls, and
whether the critical early-stop message was logged. -/
def scanGo {α : Type} (limit : Option Nat) :
    List (List α) → List α → Nat → List α × Nat × Bool
  | [], items, calls => (items, calls, false)
  | p :: rest, items, calls =>
    if limExceeded limit items then (items, calls, true)
    else scanGo limit rest (items ++ p) (calls + 1)

/-- Outcome of `Dynamo.read`. `accumulated` is `items` as the loop left
it, `items` the value returned after the post-hoc `items[:limit]`
truncation. -/
structure ReadResult (α : Type) where
  accumulated : List α
  items : List α
  scanCalls : Nat
  criticalLogged : Bool
  raisedExc : Option Exc
  deriving DecidableEq, Repr

/-- `Dynamo.read`: a truthy `query_type` raises `NotImplementedError`;
otherwise scan pages are accumulated while a continuation token is
present (stopping early, logging critical, once the count exceeds
`limit`), and the result is truncated by `items[:limit]` when `limit` is
truthy (a limit of `0` is falsy in Python and does not truncate). -/
def read {α : Type} (pages : List (List α)) (queryType : Option String)
    (limit : Option Nat) : ReadResult α :=
  if optTruthy queryType then ⟨[], [], 0, false, some .notImplementedError⟩
  else
    let st := match pages with
      | [] => ([], 1, false)
      | p :: rest => scanGo limit rest p 1
    let final := match limit with
      | some l => if l ≠ 0 then st.1.take l else st.1
      | none => st.1
    ⟨st.1, final, st.2.1, st.2.2, none⟩

/-- Python `str.split(sep)` for a one-character separator, over the
character list (structural, so the kernel can evaluate it): split into
the maximal runs between separator occurrences, keeping empty pieces
(`''.split(',') == ['']`). -/
def pySplitList (sep : Char) : List Char → List (List Char)
  | [] => [[]]
  | c :: cs =>
    match pySplitList sep cs with
    | [] => [[]]
    | piece :: rest => if c = sep then [] :: piece :: rest else (c :: piece) :: rest

/-- Python `s.split(sep)` for a one-character separator. -/
def pySplit (sep : Char) (s : String) : List String :=
  (pySplitList sep s.toList).map List.asString

/-- `[':' + l for l in ascii_lowercase]`. -/
def placeholders : List String :=
  "abcdefghijklmnopqrstuvwxyz".toList.map (fun c => ":".push c)

/-- `[exp.split('=') for exp in expression.split(',')]`. -/
def splitPairs (expression : String) : List (List String) :=
  (pySplit ',' expression).map (fun e => pySplit '=' e)

/-- `ue_format = zip([exp[0] for exp in expression], [':'+l ...])`
(pairs the zip yields; `exp[0]` always exists since `str.split` never
returns an empty piece list). -/
def ueFormat (pairs : List (List String)) : List (String × String) :=
  (pairs.map (fun p => p.headD "")).zip placeholders

/-- `eav_format = zip([exp[1] for exp in expression], [':'+l ...])`
(pairs the zip would yield; callers first check that every pair has a
second component, as `exp[1]` raises `IndexError` otherwise). -/
def eavFormat (pairs : List (List String)) : List (String × String) :=
  (pairs.map (fun p => p.getD 1 "")).zip placeholders

/-- `'set ' + ','.join(['{} = {}'.format(*z) for z in ue_format])`. -/
def updateExprString (pairs : List (List String)) : String :=
  "set " ++ ",".intercalate ((ueFormat pairs).map (fun z => z.1 ++ " = " ++ z.2))

/-- One `table.update_item(...)` call as issued by `Dynamo._update`.
A `none` value marks a column lookup on which Python would raise
`KeyError` (no claim exercises that path). -/
structure UpdateCall where
  key : List (String × Option PyVal)
  updateExpr : String
  eav : List (String × Option PyVal)
  deriving DecidableEq, Repr

/-- The `for item in items` loop of `Dynamo._update`.  `eavRemaining` is
the state of the one-shot `zip` iterator `eav_format` (Python 3): the
dict comprehension `{z[1]: item[z[0]] for z in eav_format}` drains
whatever is left of it, so after the first record it is empty. -/
def callsGo (keyCols : List String) (ueStr : String) :
    List Rec → List (String × String) → List UpdateCall
  | [], _ => []
  | item :: rest, eavRemaining =>
    { key := keyCols.map (fun k => (k, item.lookup k)),
      updateExpr := ueStr,
      eav := eavRemaining.map (fun z => (z.2, item.lookup z.1)) }
      :: callsGo keyCols ueStr rest []

/-- `Dynamo._update`: encode the records, split the key and expression
specs, build the update-expression string and the attribute-value
bindings, then issue one `update_item` per record.  `none` for `key` or
`expression` models Python's `None.split` (`AttributeError`); a pair
without `=` models `exp[1]` (`IndexError`). -/
def update (data : Frame) (key expression : Option String) :
    Option Exc × List UpdateCall :=
  match key, expression with
  | some k, some e =>
    let items := data.toRecords.map encode
    let keyCols := pySplit ',' k
    let pairs := splitPairs e
    if pairs.any (fun p => decide (p.length < 2)) then (some .indexError, [])
    else (none, callsGo keyCols (updateExprString pairs) items (eavFormat pairs))
  | _, _ => (some .attributeError, [])

/-- The `for item in items` loop of `Dynamo._merge`: put items one by
one; `putFails i` says whether the backend rejects the put of the `i`-th
record.  On the first rejection the `except` block runs and re-raises, so
the remaining items are never attempted.  (In the source the re-raise is
a bare `raise Exception`; under Python 3 the `ex.message` access in the
`except` block itself raises `AttributeError` first — either way an
exception propagates at that exact point, modelled as
`genericException`.) -/
def mergeGo (putFails : Nat → Bool) : List Rec → Nat → List Rec × Option Exc
  | [], _ => ([], none)
  | it :: rest, i =>
    if putFails i then ([it], some .genericException)
    else
      let r := mergeGo putFails rest (i + 1)
      (it :: r.1, r.2)

/-- Result of `Dynamo._merge`: the puts actually attempted, and the
exception, if one propagated. -/
structure MergeResult where
  putsAttempted : List Rec
  raisedExc : Option Exc
  deriving DecidableEq

/-- `Dynamo._merge`: encode every record, then put them one by one inside
the batch writer. -/
def merge (data : Frame) (putFails : Nat → Bool) : MergeResult :=
  let items := data.toRecords.map encode
  let r := mergeGo putFails items 0
  ⟨r.1, r.2⟩

/-- Observable outcome of `Dynamo.write`. -/
structure WriteResult where
  raisedExc : Option Exc
  criticalLogged : Bool
  putsAttempted : List Rec
  updateItemCalls : List UpdateCall
  deriving DecidableEq

/-- `Dynamo.write`: dispatch on `load_type`.  `merge` runs `_merge`;
`overwrite` logs an error and raises `NotImplementedError`; `update`
first checks `not kwargs.get('expression') and not kwargs.get('key')`
(note: `and`, so it raises `EnvironmentError` only when *both* are
missing/empty) and otherwise runs `_update`; any other name logs at
critical severity and returns. -/
def write (data : Frame) (loadType : String) (key expression : Option String)
    (putFails : Nat → Bool) : WriteResult :=
  if loadType = "merge" then
    let r := merge data putFails
    ⟨r.raisedExc, false, r.putsAttempted, []⟩
  else if loadType = "overwrite" then
    ⟨some .notImplementedError, false, [], []⟩
  else if loadType = "update" then
    if !optTruthy expression && !optTruthy key then
      ⟨some .environmentError, false, [], []⟩
    else
      let r := update data key expression
      ⟨r.1, false, [], r.2⟩
  else
    ⟨none, true, [], []⟩

end Dynamo

/-- Pandas column assignment `data[c] = v` with a scalar: broadcast `v`
to every row; a fresh column is appended (with object dtype — the
assigned scalars on the verified paths are strings); an existing column
is overwritten in place. -/
def Frame.setCol (f : Frame) (c : String) (v : PyVal) : Frame :=
  match f.cols.indexOf? c with
  | some i =>
    { f with dtypes := f.dtypes.set i .objectD, rows := f.rows.map (fun r => r.set i v) }
  | none =>
    { cols := f.cols ++ [c], dtypes := f.dtypes ++ [.objectD],
      rows := f.rows.map (fun r => r ++ [v]) }

namespace Mssql

/-- `Mssql.options`' `get_option`: `'%d'` for integer/float dtypes
(`'i' in dtype or 'f' in dtype`), `'%s'` otherwise. -/
def getOption : Dtype → String
  | .intD => "%d"
  | .floatD => "%d"
  | .objectD => "%s"

/-- `Mssql.options`. -/
def options (f : Frame) : List String :=
  f.dtypes.map getOption

/-- The `INSERT INTO {} ({}) VALUES ({})` text built by `Mssql._insert`. -/
def insertQuery (table : String) (f : Frame) : String :=
  "INSERT INTO " ++ table ++ " (" ++ ",".intercalate f.cols ++ ") VALUES (" ++
    ",".intercalate (options f) ++ ")"

/-- Outcome of `Mssql._insert`: the statement text and the rows handed to
`cursor.executemany`, plus which log lines fired.  The `try/except`
around `executemany` catches every backend error, so no field for a
propagated exception exists: the method always returns. -/
structure InsertResult where
  query : String
  itemsSent : List (List PyVal)
  errorLogged : Bool
  infoLogged : Bool
  deriving DecidableEq

/-- `Mssql._insert`: stamp `insert_timestamp` with the current time
(`nowStr`), build the statement from the stamped frame's columns and
dtypes, send every row in one `executemany`, and catch (log, swallow) any
backend error (`execFails`). -/
def insert (data : Frame) (table : String) (nowStr : String)
    (execFails : Bool) : InsertResult :=
  let stamped := data.setCol "insert_timestamp" (.pstr nowStr)
  { query := insertQuery table stamped,
    itemsSent := stamped.rows,
    errorLogged := execFails,
    infoLogged := !execFails }

/-- Observable outcome of `Mssql.write`. -/
structure WriteResult where
  raisedExc : Option Exc
  criticalLogged : Bool
  committed : Bool
  insertRes : Option InsertResult
  truncateAttempted : Bool
  truncateErrorLogged : Bool
  deriving DecidableEq

/-- `Mssql.write`: a falsy `table` option raises `ValueError`; `merge`
and `update` raise `NotImplementedError` (`_merge`/`_update`); `append`
runs `_insert`; `overwrite` runs `_truncate` (whose failure `truncFails`
is caught and logged) then `_insert`; any other strategy name logs at
critical severity and returns before the commit. -/
def write (data : Frame) (table : Option String) (loadType : String)
    (nowStr : String) (execFails truncFails : Bool) : WriteResult :=
  if !optTruthy table then ⟨some .valueError, false, false, none, false, false⟩
  else
    let t := table.getD ""
    if loadType = "merge" then ⟨some .notImplementedError, false, false, none, false, false⟩
    else if loadType = "append" then
      ⟨none, false, true, some (insert data t nowStr execFails), false, false⟩
    else if loadType = "overwrite" then
      ⟨none, false, true, some (insert data t nowStr execFails), true, truncFails⟩
    else if loadType = "update" then
      ⟨some .notImplementedError, false, false, none, false, false⟩
    else ⟨none, true, false, none, false, false⟩

/-- `Mssql.read`: resolve the query text (inline option, else file
contents, else raise `EnvironmentError` before connecting), then return
whatever the backend produces for it — the `limit` option is never
consulted. -/
def read (query queryFile : Option String) (fileText : String → String)
    (backend : String → Frame) (limit : Option Nat) : Option Exc × Frame :=
  let q : Option String :=
    if optTruthy query then query
    else if optTruthy queryFile then some (fileText (queryFile.getD "")) else none
  match q with
  | none => (some .environmentError, ⟨[], [], []⟩)
  | some qq => (none, backend qq)

end Mssql

namespace Redshift

/-- `Redshift.options`' `get_option`: always `'%s'`. -/
def getOption : Dtype → String := fun _ => "%s"

/-- `Redshift.options`. -/
def options (f : Frame) : List String :=
  f.dtypes.map getOption

/-- The `INSERT INTO {} ({}) VALUES ({})` text built by
`Redshift._insert`. -/
def insertQuery (table : String) (f : Frame) : String :=
  "INSERT INTO " ++ table ++ " (" ++ ",".intercalate f.cols ++ ") VALUES (" ++
    ",".intercalate (options f) ++ ")"

/-- `Redshift._insert`: same shape as `Mssql._insert` (stamp, build,
`executemany`, catch-and-log). -/
def insert (data : Frame) (table : String) (nowStr : String)
    (execFails : Bool) : Mssql.InsertResult :=
  let stamped := data.setCol "insert_timestamp" (.pstr nowStr)
  { query := insertQuery table stamped,
    itemsSent := stamped.rows,
    errorLogged := execFails,
    infoLogged := !execFails }

/-- `Redshift.write`: the table name is a positional argument (no
`ValueError` guard).  Only `append` is implemented: unlike `Mssql`, the
`Redshift` class defines no `_merge`, `_overwrite`, `_update` (nor
`_truncate`) and inherits none from the abstract `Database` base, so the
`merge`, `overwrite` and `update` branches fail at the `self._merge` /
`self._overwrite` / `self._update` attribute lookup with
`AttributeError` — in particular `overwrite` never truncates and never
reaches an insert.  Any other strategy name logs at critical severity
and returns before the commit. -/
def write (data : Frame) (table : String) (loadType : String)
    (nowStr : String) (execFails : Bool) : Mssql.WriteResult :=
  if loadType = "merge" then ⟨some .attributeError, false, false, none, false, false⟩
  else if loadType = "append" then
    ⟨none, false, true, some (insert data table nowStr execFails), false, false⟩
  else if loadType = "overwrite" then
    ⟨some .attributeError, false, false, none, false, false⟩
  else if loadType = "update" then
    ⟨some .attributeError, false, false, none, false, false⟩
  else ⟨none, true, false, none, false, false⟩

/-- `Redshift.read`: identical to `Mssql.read` (the source duplicates the
body); the `limit` option is never consulted. -/
def read (query queryFile : Option String) (fileText : String → String)
    (backend : String → Frame) (limit : Option Nat) : Option Exc × Frame :=
  let q : Option String :=
    if optTruthy query then query
    else if optTruthy queryFile then some (fileText (queryFile.getD "")) else none
  match q with
  | none => (some .environmentError, ⟨[], [], []⟩)
  | some qq => (none, backend qq)

end Redshift

/-! ### Concrete fixtures used by the theorems -/

/-- Three scan pages of 100, 100 and 50 items (the spec's pagination
example). -/
def pages100s : List (List Nat) :=
  [List.replicate 100 0, List.replicate 100 1, List.replicate 50 2]

/-- A two-record dataset for the update-strategy tests. -/
def dfTwo : Frame :=
  ⟨["id", "status", "new_status"], [.intD, .objectD, .objectD],
    [[.pint 1, .pstr "a", .pstr "x"], [.pint 2, .pstr "b", .pstr "y"]]⟩

/-- A one-record, one-column dataset whose value is the binary64 float
nearest `19.99`. -/
def dfPrice : Frame :=
  ⟨["price"], [.floatD], [[.pfloat (roundDouble 1999 100)]]⟩

/-- A relational backend whose query result has two rows. -/
def twoRowBackend : String → Frame :=
  fun _ => ⟨["a"], [.intD], [[.pint 1], [.pint 2]]⟩

/-- A put oracle that rejects exactly the second item (index 1). -/
def failSecondPut : Nat → Bool :=
  fun i => i == 1

/-- A put oracle that accepts every item. -/
def noPutFails : Nat → Bool :=
  fun _ => false

/-! ### Helper lemmas -/

/-- `str.split` never yields an empty piece list. -/
theorem pySplitList_ne_nil (sep : Char) (cs : List Char) :
    Dynamo.pySplitList sep cs ≠ [] := by
  cases cs with
  | nil => simp [Dynamo.pySplitList]
  | cons c cs =>
    simp only [Dynamo.pySplitList]
    match h : Dynamo.pySplitList sep cs with
    | [] => simp
    | piece :: rest =>
      by_cases hc : c = sep <;> simp [hc]

/-- `splitPairs` never yields an empty pair list. -/
theorem splitPairs_ne_nil (e : String) : Dynamo.splitPairs e ≠ [] := by
  simp only [Dynamo.splitPairs, Dynamo.pySplit, ne_eq, List.map_eq_nil_iff]
  exact pySplitList_ne_nil ',' e.toList

/-- The placeholder alphabet has 26 symbols. -/
theorem placeholders_length : Dynamo.placeholders.length = 26 := by decide

/-- One value is a fixed point of the normalizer after one pass. -/
theorem encodeVal_idem (v : PyVal) :
    Dynamo.encodeVal (Dynamo.encodeVal v) = Dynamo.encodeVal v := by
  cases v <;> rfl

/-- `_update` issues one `update_item` per record. -/
theorem callsGo_length (kc : List String) (ue : String) :
    ∀ (items : List Rec) (eav : List (String × String)),
      (Dynamo.callsGo kc ue items eav).length = items.length := by
  intro items
  induction items with
  | nil => intro eav; rfl
  | cons it rest ih => intro eav; simp [Dynamo.callsGo, ih]

/-- Once the `eav_format` iterator is drained, every remaining
`update_item` call carries an empty attribute-value map. -/
theorem callsGo_nil_eav (kc : List String) (ue : String) :
    ∀ (items : List Rec), ∀ c ∈ Dynamo.callsGo kc ue items [], c.eav = [] := by
  intro items
  induction items with
  | nil => intro c hc; simp [Dynamo.callsGo] at hc
  | cons it rest ih =>
    intro c hc
    simp only [Dynamo.callsGo, List.mem_cons] at hc
    rcases hc with h | h
    · subst h; rfl
    · exact ih c h

/-- Full specification of the pagination loop of `Dynamo.read` with a
limit set: the scan-call count dominates the starting count, at most one
call per page is made, the accumulated items are the concatenation of
exactly the pages fetched, every extra page was requested only while the
accumulated count had not yet exceeded the limit, the critical early-stop
fires only with the count strictly above the limit and pages still
pending, and without an early stop every page is fetched. -/
theorem scanGo_spec {α : Type} (l : Nat) (rest : List (List α)) (items : List α)
    (calls : Nat) :
    calls ≤ (Dynamo.scanGo (some l) rest items calls).2.1 ∧
    (Dynamo.scanGo (some l) rest items calls).2.1 - calls ≤ rest.length ∧
    (Dynamo.scanGo (some l) rest items calls).1
      = items ++ (rest.take ((Dynamo.scanGo (some l) rest items calls).2.1 - calls)).flatten ∧
    (∀ k, k < (Dynamo.scanGo (some l) rest items calls).2.1 - calls →
      (items ++ (rest.take k).flatten).length ≤ l) ∧
    ((Dynamo.scanGo (some l) rest items calls).2.2 = true →
      l < (Dynamo.scanGo (some l) rest items calls).1.length ∧
      (Dynamo.scanGo (some l) rest items calls).2.1 - calls < rest.length) ∧
    ((Dynamo.scanGo (some l) rest items calls).2.2 = false →
      (Dynamo.scanGo (some l) rest items calls).2.1 - calls = rest.length) := by
  induction rest generalizing items calls with
  | nil =>
    refine ⟨Nat.le_refl _, ?_, ?_, ?_, ?_, ?_⟩ <;> simp [Dynamo.scanGo]
  | cons p rest ih =>
    by_cases h : Dynamo.limExceeded (some l) items
    · have hlen : l < items.length := by
        simpa [Dynamo.limExceeded] using h
      have hred : Dynamo.scanGo (some l) (p :: rest) items calls
          = (items, calls, true) := by
        simp [Dynamo.scanGo, h]
      rw [hred]
      refine ⟨Nat.le_refl _, ?_, ?_, ?_, ?_, ?_⟩ <;> simp [hlen]
    · have hlen : items.length ≤ l := by
        simpa [Dynamo.limExceeded] using h
      have hred : Dynamo.scanGo (some l) (p :: rest) items calls
          = Dynamo.scanGo (some l) rest (items ++ p) (calls + 1) := by
        simp [Dynamo.scanGo, h]
      obtain ⟨ih1, ih2, ih3, ih4, ih5, ih6⟩ := ih (items ++ p) (calls + 1)
      rw [hred]
      set r := Dynamo.scanGo (some l) rest (items ++ p) (calls + 1) with hr
      have hd : r.2.1 - calls = (r.2.1 - (calls + 1)) + 1 := by omega
      refine ⟨by omega, by simp [hd]; omega, ?_, ?_, ?_, ?_⟩
      · rw [hd, List.take_succ_cons, List.flatten_cons, ← List.append_assoc]
        exact ih3
      · intro k hk
        cases k with
        | zero => simpa using hlen
        | succ k' =>
          rw [List.take_succ_cons, List.flatten_cons, ← List.append_assoc]
          exact ih4 k' (by omega)
      · intro hc
        obtain ⟨h1, h2⟩ := ih5 hc
        refine ⟨h1, ?_⟩
        simp only [List.length_cons]
        omega
      · intro hc
        have := ih6 hc
        simp [hd, List.length_cons]
        omega

/-- Assigning a fresh column appends it (with object dtype) and appends
the broadcast value to every row. -/
theorem setCol_not_mem (f : Frame) (c : String) (v : PyVal) (h : c ∉ f.cols) :
    f.setCol c v
      = ⟨f.cols ++ [c], f.dtypes ++ [.objectD], f.rows.map (fun r => r ++ [v])⟩ := by
  have hidx : f.cols.indexOf? c = none := by
    rw [List.indexOf?_eq_none_iff]
    intro x hx hbeq
    exact h (by rwa [eq_of_beq hbeq] at hx)
  simp [Frame.setCol, hidx]

/-- If the first rejected put is the `i`-th record, `_merge` attempts
exactly the first `i + 1` puts and the exception propagates. -/
theorem mergeGo_first_fail (pf : Nat → Bool) :
    ∀ (items : List Rec) (n i : Nat), i < items.length → pf (n + i) = true →
      (∀ j, j < i → pf (n + j) = false) →
      Dynamo.mergeGo pf items n = (items.take (i + 1), some .genericException) := by
  intro items
  induction items with
  | nil =>
    intro n i hi _ _
    simp at hi
  | cons it rest ih =>
    intro n i hi hf hprev
    cases i with
    | zero =>
      have h0 : pf n = true := by simpa using hf
      simp [Dynamo.mergeGo, h0]
    | succ i' =>
      have h0 : pf n = false := by simpa using hprev 0 (Nat.succ_pos _)
      have hstep := ih (n + 1) i' (by simpa using Nat.lt_of_succ_lt_succ hi)
        (by rw [show n + 1 + i' = n + (i' + 1) by omega]; exact hf)
        (fun j hj => by
          rw [show n + 1 + j = n + (j + 1) by omega]
          exact hprev (j + 1) (by omega))
      simp [Dynamo.mergeGo, h0, hstep]

/-! ### Claim theorems -/

/-- C1: the spec says a write with strategy `update` raises
`ConfigurationError` (`EnvironmentError`) whenever *either* the key spec
or the expression spec is missing/empty.  The code's guard joins the two
emptiness tests with `and`, so with the key present and the expression
absent it passes the guard and `_update` then crashes on
`None.split(',')` (`AttributeError`), not `EnvironmentError`; only when
*both* are missing does `EnvironmentError` fire.  The code's own error
message ("provide a --key ... and an --expression ...") and the spec
agree that either one missing should raise, so the `and` is a slip for
`or`. -/
theorem c1_update_guard_and_slip :
    (Dynamo.write dfTwo "update" (some "id") none noPutFails).raisedExc
        = some .attributeError ∧
    (Dynamo.write dfTwo "update" (some "id") none noPutFails).raisedExc
        ≠ some .environmentError ∧
    (Dynamo.write dfTwo "update" none (some "status=new_status") noPutFails).raisedExc
        = some .attributeError ∧
    (Dynamo.write dfTwo "update" none none noPutFails).raisedExc
        = some .environmentError := by
  decide

/-- C8: on `key_spec="id"`, `expr_spec="status=new_status,count=new_count"`
the expression builder yields exactly two bindings with the synthetic
placeholders `:a`, `:b` in pair order — `status` paired with `:a`,
`count` with `:b` in the set clause, `new_status`/`new_count` likewise in
the value map — and the key-column set `{"id"}`. -/
theorem c8_expression_builder :
    Dynamo.ueFormat (Dynamo.splitPairs "status=new_status,count=new_count")
        = [("status", ":a"), ("count", ":b")] ∧
    Dynamo.eavFormat (Dynamo.splitPairs "status=new_status,count=new_count")
        = [("new_status", ":a"), ("new_count", ":b")] ∧
    Dynamo.updateExprString (Dynamo.splitPairs "status=new_status,count=new_count")
        = "set status = :a,count = :b" ∧
    Dynamo.pySplit ',' "id" = ["id"] := by
  decide

/-- C9: the type normalizer maps every integer to the exact decimal of
the same value, maps the binary64 float nearest `19.99` to the exact
decimal `19.99` (coefficient 1999, exponent -2) and not to a drifted
value such as `19.990000000000002`, formats timestamps as
`YYYY-MM-DD HH:MM:SS`, and passes decimals, strings and null through
unchanged (it is a total function: no value makes it raise). -/
theorem c9_type_normalizer :
    (∀ n : ℤ, Dynamo.encodeVal (.pint n) = .pdec ⟨n, 0⟩) ∧
    Dynamo.encodeVal (.pfloat (roundDouble 1999 100)) = .pdec ⟨1999, -2⟩ ∧
    shortestDec (roundDouble 1999 100) ≠ ⟨19990000000000002, -15⟩ ∧
    (∀ t : Ts, Dynamo.encodeVal (.pts t) = .pstr (formatTs t)) ∧
    formatTs ⟨2024, 6, 3, 7, 5, 9⟩ = "2024-06-03 07:05:09" ∧
    (∀ s : String, Dynamo.encodeVal (.pstr s) = .pstr s) ∧
    (∀ d : Dec, Dynamo.encodeVal (.pdec d) = .pdec d) ∧
    Dynamo.encodeVal .pnull = .pnull :=
  ⟨fun _ => rfl, by decide, by decide, fun _ => rfl, by decide,
   fun _ => rfl, fun _ => rfl, rfl⟩

/-- C10: the normalizer is idempotent on datasets: normalizing an
already-normalized dataset changes nothing. -/
theorem c10_normalize_idempotent (D : List Rec) :
    (D.map Dynamo.encode).map Dynamo.encode = D.map Dynamo.encode := by
  simp only [List.map_map, List.map_inj_left, Function.comp_apply]
  intro r _
  simp only [Dynamo.encode, List.map_map, List.map_inj_left, Function.comp_apply]
  intro kv _
  simp [encodeVal_idem]

set_option maxRecDepth 20000 in
/-- C7: the key-value full scan keeps issuing scan calls while a
continuation token is present, accumulating the pages' items in order; it
stops early, logging at critical severity, as soon as the accumulated
count exceeds the limit before the backend is exhausted (critical implies
the count exceeded the limit with pages still pending; no page is ever
requested after the accumulated count has exceeded the limit); and on
pages of 100/100/50 items with `limit=120` it returns exactly 120 records
from 2 scan calls, never requesting the third page. -/
theorem c7_scan_pagination :
    (∀ (p0 : List Nat) (pages : List (List Nat)) (l : Nat),
      (Dynamo.read (p0 :: pages) none (some l)).accumulated
          = p0 ++ (pages.take
              ((Dynamo.read (p0 :: pages) none (some l)).scanCalls - 1)).flatten ∧
      ((Dynamo.read (p0 :: pages) none (some l)).criticalLogged = false →
        (Dynamo.read (p0 :: pages) none (some l)).scanCalls = pages.length + 1) ∧
      ((Dynamo.read (p0 :: pages) none (some l)).criticalLogged = true →
        l < (Dynamo.read (p0 :: pages) none (some l)).accumulated.length ∧
        (Dynamo.read (p0 :: pages) none (some l)).scanCalls ≤ pages.length) ∧
      (∀ k, k + 1 < (Dynamo.read (p0 :: pages) none (some l)).scanCalls →
        (p0 ++ (pages.take k).flatten).length ≤ l)) ∧
    (Dynamo.read pages100s none (some 120)).items.length = 120 ∧
    (Dynamo.read pages100s none (some 120)).scanCalls = 2 ∧
    (Dynamo.read pages100s none (some 120)).criticalLogged = true := by
  refine ⟨?_, by decide, by decide, by decide⟩
  intro p0 pages l
  obtain ⟨h1, h2, h3, h4, h5, h6⟩ := scanGo_spec l pages p0 1
  have hacc : (Dynamo.read (p0 :: pages) none (some l)).accumulated
      = (Dynamo.scanGo (some l) pages p0 1).1 := rfl
  have hcalls : (Dynamo.read (p0 :: pages) none (some l)).scanCalls
      = (Dynamo.scanGo (some l) pages p0 1).2.1 := rfl
  have hcrit : (Dynamo.read (p0 :: pages) none (some l)).criticalLogged
      = (Dynamo.scanGo (some l) pages p0 1).2.2 := rfl
  rw [hacc, hcalls, hcrit]
  refine ⟨h3, ?_, ?_, ?_⟩
  · intro hc
    have := h6 hc
    omega
  · intro hc
    obtain ⟨ha, hb⟩ := h5 hc
    exact ⟨ha, by omega⟩
  · intro k hk
    exact h4 k (by omega)

/-- Witness for C7 at concrete inputs: with pages `[0,1]`, `[3]`, `[4]`
and `limit=1` the early stop fires with more than `limit` items after at
most two calls; with `limit=5` the check before the second extra scan had
passed. -/
theorem c7_scan_pagination_witness :
    (1 < (Dynamo.read ([0, 1] :: [[3], [4]]) none (some 1)).accumulated.length ∧
      (Dynamo.read ([0, 1] :: [[3], [4]]) none (some 1)).scanCalls ≤ 2) ∧
    ([0, 1] ++ (([[3], [4]] : List (List Nat)).take 1).flatten).length ≤ 5 :=
  ⟨(c7_scan_pagination.1 [0, 1] [[3], [4]] 1).2.2.1 (by decide),
   (c7_scan_pagination.1 [0, 1] [[3], [4]] 5).2.2.2 1 (by decide)⟩

/-- C2 counterexample: a relational (`Mssql`) read with `limit=1` whose
query produces two rows returns both rows — the claim demands exactly
one.  The relational `read` never consults the `limit` option. -/
theorem c2_relational_limit_ignored :
    (Mssql.read (some "SELECT * FROM t") none (fun _ => "") twoRowBackend
        (some 1)).2.rows.length = 2 ∧
    ¬ (Mssql.read (some "SELECT * FROM t") none (fun _ => "") twoRowBackend
        (some 1)).2.rows.length ≤ 1 := by
  decide

/-- C2 as amended: only the key-value backend's read truncates post-hoc —
to at most `limit` records for a positive limit — while the relational
reads (`Mssql` and `Redshift`) never consult the `limit` option and
return every row the query produced, unchanged. -/
theorem c2_limit_truncation_amended :
    (∀ (q : String) (qf : Option String) (ft : String → String)
        (be : String → Frame) (lim : Option Nat),
      optTruthy (some q) = true →
        Mssql.read (some q) qf ft be lim = (none, be q) ∧
        Redshift.read (some q) qf ft be lim = (none, be q)) ∧
    (∀ (pages : List (List Nat)) (l : Nat), 1 ≤ l →
      (Dynamo.read pages none (some l)).items.length ≤ l) := by
  constructor
  · intro q qf ft be lim hq
    constructor
    · simp [Mssql.read, hq]
    · simp [Redshift.read, hq]
  · intro pages l hl
    have hne : ¬ l = 0 := by omega
    cases pages with
    | nil =>
      simp [Dynamo.read, optTruthy, hne]
    | cons p0 ps =>
      have hitems : (Dynamo.read (p0 :: ps) none (some l)).items
          = (Dynamo.scanGo (some l) ps p0 1).1.take l := by
        simp [Dynamo.read, optTruthy, hne]
      rw [hitems]
      simp [List.length_take]

/-- Witness for C2's amended statement at concrete inputs. -/
theorem c2_limit_truncation_amended_witness :
    Mssql.read (some "SELECT 1") none (fun _ => "") twoRowBackend (some 1)
        = (none, twoRowBackend "SELECT 1") ∧
    (Dynamo.read pages100s none (some 1)).items.length ≤ 1 :=
  ⟨(c2_limit_truncation_amended.1 "SELECT 1" none (fun _ => "") twoRowBackend
      (some 1) (by decide)).1,
   c2_limit_truncation_amended.2 pages100s 1 (by decide)⟩

/-- C3 counterexample: `Mssql._insert` hands the connector the raw binary
float for the `price` column — no record is type-normalized on the
relational insert path (the normalizer would have turned it into a
decimal). -/
theorem c3_relational_insert_not_normalized :
    (Mssql.insert dfPrice "t" "2020-01-01 00:00:00" false).itemsSent
        = [[.pfloat (roundDouble 1999 100), .pstr "2020-01-01 00:00:00"]] ∧
    Dynamo.encodeVal (.pfloat (roundDouble 1999 100))
        ≠ .pfloat (roundDouble 1999 100) := by
  decide

/-- C3 as amended: both relational insert paths stamp an
`insert_timestamp` column holding the current time onto the dataset
before the bulk multi-row INSERT is built and executed (the statement's
column list ends with it, every sent row ends with the stamp), but they
do NOT type-normalize the records: the original values reach the
connector unchanged. -/
theorem c3_insert_stamps_without_normalizing :
    ∀ (data : Frame) (table nowStr : String) (ef : Bool),
      "insert_timestamp" ∉ data.cols →
        (Mssql.insert data table nowStr ef).itemsSent
            = data.rows.map (fun r => r ++ [.pstr nowStr]) ∧
        (Mssql.insert data table nowStr ef).query
            = "INSERT INTO " ++ table ++ " ("
                ++ ",".intercalate (data.cols ++ ["insert_timestamp"])
                ++ ") VALUES ("
                ++ ",".intercalate (Mssql.options data ++ ["%s"]) ++ ")" ∧
        (Redshift.insert data table nowStr ef).itemsSent
            = data.rows.map (fun r => r ++ [.pstr nowStr]) ∧
        (Redshift.insert data table nowStr ef).query
            = "INSERT INTO " ++ table ++ " ("
                ++ ",".intercalate (data.cols ++ ["insert_timestamp"])
                ++ ") VALUES ("
                ++ ",".intercalate (Redshift.options data ++ ["%s"]) ++ ")" := by
  intro data table nowStr ef h
  have hs := setCol_not_mem data "insert_timestamp" (.pstr nowStr) h
  refine ⟨?_, ?_, ?_, ?_⟩ <;>
    simp [Mssql.insert, Redshift.insert, hs, Mssql.insertQuery, Redshift.insertQuery,
      Mssql.options, Redshift.options, Mssql.getOption, Redshift.getOption]

/-- Witness for C3's amended statement at a concrete input. -/
theorem c3_insert_stamps_without_normalizing_witness :
    (Mssql.insert dfPrice "t" "2020-01-01 00:00:00" false).itemsSent
        = dfPrice.rows.map (fun r => r ++ [.pstr "2020-01-01 00:00:00"]) :=
  (c3_insert_stamps_without_normalizing dfPrice "t" "2020-01-01 00:00:00" false
    (by decide)).1

/-- C4: the `eav_format` bindings of `Dynamo._update` are a single
one-shot `zip` iterator (Python 3) drained inside the first loop
iteration, so on any dataset of two or more records the calls list starts
with one call carrying the full, non-empty attribute-value map — one
binding per expression pair, capped by the 26-letter alphabet — and every
subsequent call carries an empty attribute-value map. -/
theorem c4_eav_iterator_drained :
    ∀ (data : Frame) (k e : String),
      2 ≤ data.rows.length →
      (Dynamo.update data (some k) (some e)).1 = none →
      ∃ c0 rest, (Dynamo.update data (some k) (some e)).2 = c0 :: rest ∧
        rest.length + 1 = data.rows.length ∧
        c0.eav.length = min (Dynamo.splitPairs e).length 26 ∧
        c0.eav ≠ [] ∧
        ∀ c ∈ rest, c.eav = [] := by
  intro data k e h2 hok
  by_cases hidx : (Dynamo.splitPairs e).any (fun p => decide (p.length < 2))
  · simp [Dynamo.update, hidx] at hok
  · have hupd : Dynamo.update data (some k) (some e)
        = (none, Dynamo.callsGo (Dynamo.pySplit ',' k)
            (Dynamo.updateExprString (Dynamo.splitPairs e))
            (data.toRecords.map Dynamo.encode)
            (Dynamo.eavFormat (Dynamo.splitPairs e))) := by
      simp [Dynamo.update, hidx]
    have hil : (data.toRecords.map Dynamo.encode).length = data.rows.length := by
      simp [Frame.toRecords]
    obtain ⟨i0, irest, hcons⟩ :
        ∃ i0 irest, data.toRecords.map Dynamo.encode = i0 :: irest := by
      cases hi : data.toRecords.map Dynamo.encode with
      | nil => rw [hi] at hil; simp at hil; omega
      | cons a b => exact ⟨a, b, rfl⟩
    have hlen0 : 1 ≤ (Dynamo.splitPairs e).length :=
      List.length_pos.mpr (splitPairs_ne_nil e)
    have heavlen : (Dynamo.eavFormat (Dynamo.splitPairs e)).length
        = min (Dynamo.splitPairs e).length 26 := by
      simp [Dynamo.eavFormat, placeholders_length]
    have hirest : irest.length + 1 = data.rows.length := by
      have : irest.length + 1 = (data.toRecords.map Dynamo.encode).length := by
        rw [hcons]; simp
      omega
    refine ⟨⟨(Dynamo.pySplit ',' k).map (fun kc => (kc, i0.lookup kc)),
        Dynamo.updateExprString (Dynamo.splitPairs e),
        (Dynamo.eavFormat (Dynamo.splitPairs e)).map (fun z => (z.2, i0.lookup z.1))⟩,
      Dynamo.callsGo (Dynamo.pySplit ',' k)
        (Dynamo.updateExprString (Dynamo.splitPairs e)) irest [],
      ?_, ?_, ?_, ?_, ?_⟩
    · rw [hupd, hcons]
      simp [Dynamo.callsGo]
    · rw [callsGo_length]
      exact hirest
    · simpa using heavlen
    · intro hnil
      have hlen := congrArg List.length hnil
      simp only [List.length_nil, List.length_map] at hlen
      omega
    · exact callsGo_nil_eav _ _ irest

/-- Witness for C4 at a concrete two-record dataset. -/
theorem c4_eav_iterator_drained_witness :
    ∃ c0 rest,
      (Dynamo.update dfTwo (some "id") (some "status=new_status")).2 = c0 :: rest ∧
      rest.length + 1 = dfTwo.rows.length ∧
      c0.eav.length = min (Dynamo.splitPairs "status=new_status").length 26 ∧
      c0.eav ≠ [] ∧
      ∀ c ∈ rest, c.eav = [] :=
  c4_eav_iterator_drained dfTwo "id" "status=new_status" (by decide) (by decide)

/-- C5: backend failures on the relational insert paths that exist —
`Mssql` `append` and the insert step of `Mssql` `overwrite`, and
`Redshift` `append` (the only strategy reaching `Redshift._insert`) —
are caught and logged and the write call returns with no exception, for
every dataset and either failure outcome; while on the key-value merge
path the first rejected put makes an exception propagate and aborts the
remaining batch: exactly the records up to and including the failing one
are attempted. -/
theorem c5_swallow_vs_propagate :
    (∀ (data : Frame) (t now : String) (ef tf : Bool),
      optTruthy (some t) = true →
        (Mssql.write data (some t) "append" now ef tf).raisedExc = none ∧
        (Mssql.write data (some t) "append" now ef tf).insertRes
            = some (Mssql.insert data t now ef) ∧
        (Mssql.insert data t now ef).errorLogged = ef ∧
        (Mssql.write data (some t) "overwrite" now ef tf).raisedExc = none ∧
        (Redshift.write data t "append" now ef).raisedExc = none ∧
        (Redshift.write data t "append" now ef).insertRes
            = some (Redshift.insert data t now ef) ∧
        (Redshift.insert data t now ef).errorLogged = ef) ∧
    (∀ (data : Frame) (pf : Nat → Bool) (i : Nat),
      i < data.rows.length → pf i = true → (∀ j, j < i → pf j = false) →
        (Dynamo.write data "merge" none none pf).raisedExc
            = some .genericException ∧
        (Dynamo.write data "merge" none none pf).putsAttempted
            = (data.toRecords.map Dynamo.encode).take (i + 1)) := by
  constructor
  · intro data t now ef tf ht
    refine ⟨?_, ?_, rfl, ?_, rfl, rfl, rfl⟩ <;> simp [Mssql.write, ht]
  · intro data pf i hi hf hprev
    have hil : (data.toRecords.map Dynamo.encode).length = data.rows.length := by
      simp [Frame.toRecords]
    have hm := mergeGo_first_fail pf (data.toRecords.map Dynamo.encode) 0 i
      (by omega) (by simpa using hf) (fun j hj => by simpa using hprev j hj)
    constructor <;> simp [Dynamo.write, Dynamo.merge, hm]

/-- Witness for C5 at concrete inputs: a failing relational insert still
returns no exception; a put rejection on the second record of a merge
propagates. -/
theorem c5_swallow_vs_propagate_witness :
    (Mssql.write dfPrice (some "t") "append" "2020-01-01 00:00:00" true false).raisedExc
        = none ∧
    (Dynamo.write dfTwo "merge" none none failSecondPut).raisedExc
        = some .genericException :=
  ⟨(c5_swallow_vs_propagate.1 dfPrice "t" "2020-01-01 00:00:00" true false
      (by decide)).1,
   (c5_swallow_vs_propagate.2 dfTwo failSecondPut 1 (by decide) (by decide)
      (fun j hj => by
        obtain rfl : j = 0 := Nat.lt_one_iff.mp hj
        decide)).1⟩

/-- C6 counterexample: a recognized-but-unimplemented strategy does not
always raise `NotImplementedError` — on the `Redshift` backend `merge`
and `update` hit a missing method and raise `AttributeError` instead
(the class defines no `_merge`/`_update`). -/
theorem c6_redshift_merge_update_attribute_error :
    (Redshift.write dfTwo "t" "merge" "now" false).raisedExc
        = some .attributeError ∧
    (Redshift.write dfTwo "t" "merge" "now" false).raisedExc
        ≠ some .notImplementedError ∧
    (Redshift.write dfTwo "t" "update" "now" false).raisedExc
        = some .attributeError := by
  decide

/-- C6 as amended: an unrecognized strategy name is a soft failure on
every backend — the write logs at critical severity and returns with no
exception, no puts, no update calls, no insert and no commit — while the
recognized-but-unimplemented combinations are hard failures that always
raise, though not always `NotImplementedError`: `overwrite` on the
key-value backend and `merge`/`update` on `Mssql` raise
`NotImplementedError` from explicit stubs, whereas `merge`, `update`
(and also `overwrite`) on `Redshift` raise `AttributeError` at the
missing-method lookup, with no truncate and no insert ever running. -/
theorem c6_strategy_dispatch_amended :
    (∀ (s : String), s ≠ "merge" → s ≠ "overwrite" → s ≠ "update" → s ≠ "append" →
      ∀ (data : Frame) (key expr : Option String) (pf : Nat → Bool)
        (t rt now : String) (ef tf : Bool),
        optTruthy (some t) = true →
          Dynamo.write data s key expr pf = ⟨none, true, [], []⟩ ∧
          Mssql.write data (some t) s now ef tf
              = ⟨none, true, false, none, false, false⟩ ∧
          Redshift.write data rt s now ef
              = ⟨none, true, false, none, false, false⟩) ∧
    (∀ (data : Frame) (key expr : Option String) (pf : Nat → Bool),
      (Dynamo.write data "overwrite" key expr pf).raisedExc
          = some .notImplementedError) ∧
    (∀ (data : Frame) (t now : String) (ef tf : Bool),
      optTruthy (some t) = true →
        (Mssql.write data (some t) "merge" now ef tf).raisedExc
            = some .notImplementedError ∧
        (Mssql.write data (some t) "update" now ef tf).raisedExc
            = some .notImplementedError) ∧
    (∀ (data : Frame) (rt now : String) (ef : Bool),
      (Redshift.write data rt "merge" now ef).raisedExc
          = some .attributeError ∧
      (Redshift.write data rt "update" now ef).raisedExc
          = some .attributeError ∧
      Redshift.write data rt "overwrite" now ef
          = ⟨some .attributeError, false, false, none, false, false⟩) := by
  refine ⟨?_, fun data key expr pf => rfl, ?_, fun data rt now ef => ⟨rfl, rfl, rfl⟩⟩
  · intro s h1 h2 h3 h4 data key expr pf t rt now ef tf ht
    refine ⟨?_, ?_, ?_⟩ <;>
      simp [Dynamo.write, Mssql.write, Redshift.write, ht, h1, h2, h3, h4]
  · intro data t now ef tf ht
    constructor <;> simp [Mssql.write, ht]

/-- Witness for C6's amended statement at the concrete unrecognized
strategy `"bogus"`. -/
theorem c6_strategy_dispatch_amended_witness :
    Dynamo.write dfTwo "bogus" none none noPutFails = ⟨none, true, [], []⟩ ∧
    Mssql.write dfTwo (some "t") "bogus" "now" false false
        = ⟨none, true, false, none, false, false⟩ :=
  ⟨(c6_strategy_dispatch_amended.1 "bogus" (by decide) (by decide)
      (by decide) (by decide) dfTwo none none noPutFails "t" "r" "now" false false
      (by decide)).1,
   (c6_strategy_dispatch_amended.1 "bogus" (by decide) (by decide)
      (by decide) (by decide) dfTwo none none noPutFails "t" "r" "now" false false
      (by decide)).2.1⟩

end DataDealer
